import Mathlib

set_option maxRecDepth 1000000

/-!
Shallow embedding of `simulator_server.py` (Accelerometer-Data-Simulation).

The simulation's per-tick motion update (the body of the `while running`
loop in `simulate`, lines 157-207) is embedded as a pure state transition
on a state of velocity, position and trail.  Python floats are modelled as
exact rationals (ℚ); all literals of the source (0.6, 0.92, 0.7, 0.1, 0.5)
are exactly representable.  Commands are modelled as the strings the server
stores, since `receive_command` stores the received token verbatim.
-/

/-- A 2D vector, as used for `robot_velocity`, `robot_pos`, `target_vel`. -/
structure Vec2 where
  x : ℚ
  y : ℚ
deriving DecidableEq

/-- Configuration constant `WIDTH` (line 19). -/
def WIDTH : ℚ := 800

/-- Configuration constant `HEIGHT` (line 19). -/
def HEIGHT : ℚ := 600

/-- Configuration constant `ROBOT_SIZE` (line 20). -/
def ROBOT_SIZE : ℚ := 40

/-- Configuration constant `robot_speed` (line 23). -/
def robot_speed : ℚ := 4

/-- Physics constant `max_speed = robot_speed` (line 112). -/
def max_speed : ℚ := robot_speed

/-- Physics constant `acceleration` (line 111). -/
def acceleration : ℚ := 0.6

/-- Physics constant `friction` (line 113). -/
def friction : ℚ := 0.92

/-- Trail capacity `max_trail` (line 117). -/
def max_trail : Nat := 150

/-- Target velocity derivation from the current command (lines 157-167):
commands F/B/L/R set one axis of `target_vel` to ∓`max_speed`; any other
string (including "S") leaves `target_vel` at `[0, 0]`. -/
def target_vel (cmd : String) : Vec2 :=
  if cmd = "F" then ⟨0, -max_speed⟩
  else if cmd = "B" then ⟨0, max_speed⟩
  else if cmd = "L" then ⟨-max_speed, 0⟩
  else if cmd = "R" then ⟨max_speed, 0⟩
  else ⟨0, 0⟩

/-- The per-axis velocity update (lines 170-181): accelerate toward a
nonzero target clamped at the target, otherwise multiply by `friction`
and snap to 0 once the magnitude falls below 0.1. -/
def axis_vel_update (t v : ℚ) : ℚ :=
  if t ≠ 0 then
    if v < t then min t (v + acceleration)
    else if v > t then max t (v - acceleration)
    else v
  else
    if |v * friction| < 0.1 then 0 else v * friction

/-- The velocity after the smooth-velocity-changes loop of one tick
(lines 170-181), before integration and boundary collision. -/
def vel_after_update (cmd : String) (s_vel : Vec2) : Vec2 :=
  ⟨axis_vel_update (target_vel cmd).x s_vel.x,
   axis_vel_update (target_vel cmd).y s_vel.y⟩

/-- Boundary collision with bounce on one axis (lines 189-201): clamp the
position to the near edge `lo` or far edge `hi` and reflect the velocity
scaled by the restitution coefficient 0.7. -/
def collide_axis (lo hi p v : ℚ) : ℚ × ℚ :=
  if p ≤ lo then (lo, |v| * 0.7)
  else if p ≥ hi then (hi, -|v| * 0.7)
  else (p, v)

/-- Trail update of one tick (lines 203-207): if the new position moved by
more than 0.5 on either axis since `old_pos`, append `old_pos` and pop the
oldest entry once the length exceeds `max_trail`. -/
def trail_update (trail : List Vec2) (old_pos new_pos : Vec2) : List Vec2 :=
  if |new_pos.x - old_pos.x| > 0.5 ∨ |new_pos.y - old_pos.y| > 0.5 then
    if max_trail < (trail ++ [old_pos]).length then (trail ++ [old_pos]).tail
    else trail ++ [old_pos]
  else trail

/-- The mutable state of the simulation loop: `robot_velocity` (line 110),
`robot_pos` (line 22), `trail_points` (line 116). -/
structure SimState where
  vel : Vec2
  pos : Vec2
  trail : List Vec2
deriving DecidableEq

/-- One tick of the simulation loop of `simulate` (lines 157-207): target
derivation, smooth velocity update, position integration, boundary
collision with bounce on each axis, trail update. -/
def simulate_tick (cmd : String) (s : SimState) : SimState :=
  let v1 := vel_after_update cmd s.vel
  let cx := collide_axis (ROBOT_SIZE / 2) (WIDTH - ROBOT_SIZE / 2) (s.pos.x + v1.x) v1.x
  let cy := collide_axis (ROBOT_SIZE / 2) (HEIGHT - ROBOT_SIZE / 2) (s.pos.y + v1.y) v1.y
  { vel := ⟨cx.2, cy.2⟩
    pos := ⟨cx.1, cy.1⟩
    trail := trail_update s.trail s.pos ⟨cx.1, cy.1⟩ }

/-- Iterated ticks of the simulation loop under a list of commands (one
command read per tick, as lines 153-155 do). -/
def run (cmds : List String) (s : SimState) : SimState :=
  cmds.foldl (fun s c => simulate_tick c s) s

/-- The initial simulation state: `robot_velocity = [0.0, 0.0]` (line 110)
and `robot_pos = [WIDTH // 2, HEIGHT // 2] = [400, 300]` (line 22), with an
empty trail (line 116). -/
def init : SimState := { vel := ⟨0, 0⟩, pos := ⟨400, 300⟩, trail := [] }

/-- The `/command` endpoint `receive_command` (lines 26-37): reads the
query parameter `cmd` defaulting to "S" when absent, and stores that token
verbatim into `robot_command`.  The returned string is the new value of
`robot_command` (which the response also echoes). -/
def receive_command (args_cmd : Option String) : String :=
  args_cmd.getD "S"

/-- Membership of a position in the arena inclusive of the robot
half-extent margin, as the boundary clamping of lines 189-201 enforces. -/
def in_arena (p : Vec2) : Prop :=
  ROBOT_SIZE / 2 ≤ p.x ∧ p.x ≤ WIDTH - ROBOT_SIZE / 2 ∧
  ROBOT_SIZE / 2 ≤ p.y ∧ p.y ≤ HEIGHT - ROBOT_SIZE / 2

instance (p : Vec2) : Decidable (in_arena p) := by
  unfold in_arena
  infer_instance

theorem run_nil (s : SimState) : run [] s = s := rfl

theorem run_cons (c : String) (cs : List String) (s : SimState) :
    run (c :: cs) s = run cs (simulate_tick c s) := rfl

theorem axis_vel_update_self (t : ℚ) : axis_vel_update t t = t := by
  unfold axis_vel_update
  by_cases ht : t = 0
  · subst ht
    norm_num
  · rw [if_pos ht, if_neg (lt_irrefl t), if_neg (lt_irrefl t)]

/-- C9: for any command among {F, B, L, R}, if the velocity already equals
that command's target velocity, the smooth-velocity-changes update of the
next tick leaves the velocity unchanged. -/
theorem steady_state_idempotent (cmd : String) (s : SimState)
    (hcmd : cmd = "F" ∨ cmd = "B" ∨ cmd = "L" ∨ cmd = "R")
    (hv : s.vel = target_vel cmd) :
    vel_after_update cmd s.vel = s.vel := by
  unfold vel_after_update
  rw [hv, axis_vel_update_self, axis_vel_update_self]

/-- Witness for C9 at command "F" and velocity (0, -4). -/
theorem steady_state_idempotent_witness :
    (("F" : String) = "F" ∨ ("F" : String) = "B" ∨ ("F" : String) = "L" ∨ ("F" : String) = "R") ∧
    (SimState.mk ⟨0, -4⟩ ⟨400, 300⟩ []).vel = target_vel "F" ∧
    vel_after_update "F" (SimState.mk ⟨0, -4⟩ ⟨400, 300⟩ []).vel =
      (SimState.mk ⟨0, -4⟩ ⟨400, 300⟩ []).vel :=
  ⟨Or.inl rfl, by with_unfolding_all decide,
   steady_state_idempotent "F" (SimState.mk ⟨0, -4⟩ ⟨400, 300⟩ []) (Or.inl rfl)
     (by with_unfolding_all decide)⟩

/-- C10: any command token outside {F, B, L, R} (in particular any string
the ingestion endpoint stored verbatim) derives the zero target velocity,
and one tick of the motion update under it coincides with a tick under
"S". -/
theorem unknown_command_ticks_as_stop (cmd : String) (s : SimState)
    (hF : cmd ≠ "F") (hB : cmd ≠ "B") (hL : cmd ≠ "L") (hR : cmd ≠ "R") :
    target_vel cmd = ⟨0, 0⟩ ∧ simulate_tick cmd s = simulate_tick "S" s := by
  have ht : target_vel cmd = ⟨0, 0⟩ := by
    unfold target_vel
    rw [if_neg hF, if_neg hB, if_neg hL, if_neg hR]
  have hS : target_vel "S" = ⟨0, 0⟩ := by with_unfolding_all decide
  refine ⟨ht, ?_⟩
  unfold simulate_tick vel_after_update
  rw [ht, hS]

/-- Witness for C10 at the unrecognized token "X" and the initial state. -/
theorem unknown_command_ticks_as_stop_witness :
    (("X" : String) ≠ "F" ∧ ("X" : String) ≠ "B" ∧ ("X" : String) ≠ "L" ∧ ("X" : String) ≠ "R") ∧
    target_vel "X" = ⟨0, 0⟩ ∧ simulate_tick "X" init = simulate_tick "S" init :=
  ⟨⟨by decide, by decide, by decide, by decide⟩,
   (unknown_command_ticks_as_stop "X" init (by decide) (by decide) (by decide) (by decide)).1,
   (unknown_command_ticks_as_stop "X" init (by decide) (by decide) (by decide) (by decide)).2⟩

/-- Counterexample to C8: the ingestion endpoint stores the unrecognized
token "X" verbatim; the stored command is neither normalized to "S" nor
one of the five valid values. -/
theorem receive_command_counterexample :
    receive_command (some "X") = "X" ∧
    receive_command (some "X") ≠ "S" ∧
    (("X" : String) ≠ "F" ∧ ("X" : String) ≠ "B" ∧ ("X" : String) ≠ "L" ∧
     ("X" : String) ≠ "R" ∧ ("X" : String) ≠ "S") := by
  with_unfolding_all decide

/-- C8 amended: the ingestion endpoint stores the received token verbatim
("S" is only the default for an absent parameter); unrecognized tokens are
not normalized at ingestion, so the stored command can be any string. -/
theorem receive_command_stores_verbatim :
    (∀ c : String, receive_command (some c) = c) ∧ receive_command none = "S" :=
  ⟨fun _ => rfl, rfl⟩

theorem abs_target_vel (cmd : String) :
    |(target_vel cmd).x| ≤ max_speed ∧ |(target_vel cmd).y| ≤ max_speed := by
  unfold target_vel
  split_ifs <;> constructor <;> simp <;> norm_num [max_speed, robot_speed]

theorem abs_axis_vel_update (t v : ℚ)
    (ht : |t| ≤ max_speed) (hv : |v| ≤ max_speed) :
    |axis_vel_update t v| ≤ max_speed := by
  have hacc : (0 : ℚ) ≤ acceleration := by norm_num [acceleration]
  have hfr : |friction| ≤ 1 := by
    rw [abs_le]
    constructor <;> norm_num [friction]
  rcases abs_le.mp ht with ⟨ht1, ht2⟩
  rcases abs_le.mp hv with ⟨hv1, hv2⟩
  unfold axis_vel_update
  split_ifs with h1 h2 h3 h4
  · rw [abs_le]
    exact ⟨le_min (by linarith) (by linarith), le_trans (min_le_left _ _) ht2⟩
  · rw [abs_le]
    exact ⟨le_trans ht1 (le_max_left _ _), max_le (by linarith) (by linarith)⟩
  · exact hv
  · simpa using le_trans (abs_nonneg v) hv
  · rw [abs_mul]
    exact le_trans (mul_le_of_le_one_right (abs_nonneg v) hfr) hv

theorem abs_collide_axis_vel (lo hi p v : ℚ) :
    |(collide_axis lo hi p v).2| ≤ |v| := by
  have h7 : |(0.7 : ℚ)| ≤ 1 := by
    rw [abs_le]
    constructor <;> norm_num
  unfold collide_axis
  split_ifs
  · calc |(|v| * 0.7)| = |v| * |(0.7 : ℚ)| := by rw [abs_mul, abs_abs]
      _ ≤ |v| := mul_le_of_le_one_right (abs_nonneg v) h7
  · calc |(-|v| * 0.7)| = |v| * |(0.7 : ℚ)| := by rw [abs_mul, abs_neg, abs_abs]
      _ ≤ |v| := mul_le_of_le_one_right (abs_nonneg v) h7
  · exact le_refl |v|

theorem simulate_tick_vel_bound (cmd : String) (s : SimState)
    (hx : |s.vel.x| ≤ max_speed) (hy : |s.vel.y| ≤ max_speed) :
    |(simulate_tick cmd s).vel.x| ≤ max_speed ∧
    |(simulate_tick cmd s).vel.y| ≤ max_speed := by
  have hvx : |(vel_after_update cmd s.vel).x| ≤ max_speed :=
    abs_axis_vel_update _ _ (abs_target_vel cmd).1 hx
  have hvy : |(vel_after_update cmd s.vel).y| ≤ max_speed :=
    abs_axis_vel_update _ _ (abs_target_vel cmd).2 hy
  constructor
  · exact le_trans (abs_collide_axis_vel _ _ _ _) hvx
  · exact le_trans (abs_collide_axis_vel _ _ _ _) hvy

/-- C1: along every run of the simulation loop from a state whose velocity
is bounded per axis by `max_speed` (the initial velocity (0, 0) in
particular), every tick keeps |velocity.x| ≤ max_speed and
|velocity.y| ≤ max_speed. -/
theorem velocity_bound_invariant (s : SimState)
    (hx : |s.vel.x| ≤ max_speed) (hy : |s.vel.y| ≤ max_speed)
    (cmds : List String) :
    |(run cmds s).vel.x| ≤ max_speed ∧ |(run cmds s).vel.y| ≤ max_speed := by
  induction cmds generalizing s with
  | nil => exact ⟨hx, hy⟩
  | cons c cs ih =>
      have h := simulate_tick_vel_bound c s hx hy
      rw [run_cons]
      exact ih (simulate_tick c s) h.1 h.2

/-- Witness for C1 from the initial state under two Forward ticks. -/
theorem velocity_bound_invariant_witness :
    |init.vel.x| ≤ max_speed ∧ |init.vel.y| ≤ max_speed ∧
    (|(run ["F", "F"] init).vel.x| ≤ max_speed ∧
     |(run ["F", "F"] init).vel.y| ≤ max_speed) :=
  ⟨by with_unfolding_all decide, by with_unfolding_all decide,
   velocity_bound_invariant init (by with_unfolding_all decide)
     (by with_unfolding_all decide) ["F", "F"]⟩

theorem collide_axis_pos_bounds (lo hi p v : ℚ) (h : lo ≤ hi) :
    lo ≤ (collide_axis lo hi p v).1 ∧ (collide_axis lo hi p v).1 ≤ hi := by
  unfold collide_axis
  split_ifs with h1 h2
  · exact ⟨le_refl lo, h⟩
  · exact ⟨h, le_refl hi⟩
  · push_neg at h1 h2
    exact ⟨le_of_lt h1, le_of_lt h2⟩

theorem simulate_tick_in_arena (cmd : String) (s : SimState) :
    in_arena (simulate_tick cmd s).pos := by
  have hx : ROBOT_SIZE / 2 ≤ WIDTH - ROBOT_SIZE / 2 := by
    norm_num [ROBOT_SIZE, WIDTH]
  have hy : ROBOT_SIZE / 2 ≤ HEIGHT - ROBOT_SIZE / 2 := by
    norm_num [ROBOT_SIZE, HEIGHT]
  have cx := collide_axis_pos_bounds (ROBOT_SIZE / 2) (WIDTH - ROBOT_SIZE / 2)
    (s.pos.x + (vel_after_update cmd s.vel).x) (vel_after_update cmd s.vel).x hx
  have cy := collide_axis_pos_bounds (ROBOT_SIZE / 2) (HEIGHT - ROBOT_SIZE / 2)
    (s.pos.y + (vel_after_update cmd s.vel).y) (vel_after_update cmd s.vel).y hy
  exact ⟨cx.1, cx.2, cy.1, cy.2⟩

/-- C2: along every run of the simulation loop from a state whose position
is inside the arena margins (the initial position (400, 300) in
particular), every tick keeps ROBOT_SIZE/2 ≤ position.x ≤ WIDTH -
ROBOT_SIZE/2 and ROBOT_SIZE/2 ≤ position.y ≤ HEIGHT - ROBOT_SIZE/2. -/
theorem position_bound_invariant (s : SimState)
    (h : in_arena s.pos) (cmds : List String) :
    in_arena (run cmds s).pos := by
  induction cmds generalizing s with
  | nil => exact h
  | cons c cs ih =>
      rw [run_cons]
      exact ih (simulate_tick c s) (simulate_tick_in_arena c s)

/-- Witness for C2 from the initial state under a Left then a Stop tick. -/
theorem position_bound_invariant_witness :
    in_arena init.pos ∧ in_arena (run ["L", "S"] init).pos :=
  ⟨by with_unfolding_all decide,
   position_bound_invariant init (by with_unfolding_all decide) ["L", "S"]⟩

theorem simulate_tick_pos_x (cmd : String) (s : SimState) :
    (simulate_tick cmd s).pos.x =
      (collide_axis (ROBOT_SIZE / 2) (WIDTH - ROBOT_SIZE / 2)
        (s.pos.x + (vel_after_update cmd s.vel).x) (vel_after_update cmd s.vel).x).1 := rfl

theorem simulate_tick_vel_x (cmd : String) (s : SimState) :
    (simulate_tick cmd s).vel.x =
      (collide_axis (ROBOT_SIZE / 2) (WIDTH - ROBOT_SIZE / 2)
        (s.pos.x + (vel_after_update cmd s.vel).x) (vel_after_update cmd s.vel).x).2 := rfl

theorem simulate_tick_pos_y (cmd : String) (s : SimState) :
    (simulate_tick cmd s).pos.y =
      (collide_axis (ROBOT_SIZE / 2) (HEIGHT - ROBOT_SIZE / 2)
        (s.pos.y + (vel_after_update cmd s.vel).y) (vel_after_update cmd s.vel).y).1 := rfl

theorem simulate_tick_vel_y (cmd : String) (s : SimState) :
    (simulate_tick cmd s).vel.y =
      (collide_axis (ROBOT_SIZE / 2) (HEIGHT - ROBOT_SIZE / 2)
        (s.pos.y + (vel_after_update cmd s.vel).y) (vel_after_update cmd s.vel).y).2 := rfl

theorem simulate_tick_trail (cmd : String) (s : SimState) :
    (simulate_tick cmd s).trail =
      trail_update s.trail s.pos (simulate_tick cmd s).pos := rfl

theorem collide_axis_far (lo hi p v : ℚ) (hlo : lo < hi) (h : hi ≤ p) :
    collide_axis lo hi p v = (hi, -|v| * 0.7) := by
  unfold collide_axis
  rw [if_neg (not_le.mpr (lt_of_lt_of_le hlo h)), if_pos h]

theorem collide_axis_near (lo hi p v : ℚ) (h : p ≤ lo) :
    collide_axis lo hi p v = (lo, |v| * 0.7) := by
  unfold collide_axis
  rw [if_pos h]

/-- C3: whenever the post-update velocity on an axis drives the position to
or past an arena edge, that tick clamps the position exactly to the edge
and reflects the velocity to the opposite sign with magnitude exactly 0.7
times the pre-collision velocity magnitude, applied once; stated for the
far and near edges of both axes. -/
theorem collision_law :
    (∀ (cmd : String) (s : SimState),
      0 < (vel_after_update cmd s.vel).x →
      WIDTH - ROBOT_SIZE / 2 ≤ s.pos.x + (vel_after_update cmd s.vel).x →
      (simulate_tick cmd s).pos.x = WIDTH - ROBOT_SIZE / 2 ∧
      (simulate_tick cmd s).vel.x = -(0.7 * |(vel_after_update cmd s.vel).x|) ∧
      (simulate_tick cmd s).vel.x < 0) ∧
    (∀ (cmd : String) (s : SimState),
      (vel_after_update cmd s.vel).x < 0 →
      s.pos.x + (vel_after_update cmd s.vel).x ≤ ROBOT_SIZE / 2 →
      (simulate_tick cmd s).pos.x = ROBOT_SIZE / 2 ∧
      (simulate_tick cmd s).vel.x = 0.7 * |(vel_after_update cmd s.vel).x| ∧
      0 < (simulate_tick cmd s).vel.x) ∧
    (∀ (cmd : String) (s : SimState),
      0 < (vel_after_update cmd s.vel).y →
      HEIGHT - ROBOT_SIZE / 2 ≤ s.pos.y + (vel_after_update cmd s.vel).y →
      (simulate_tick cmd s).pos.y = HEIGHT - ROBOT_SIZE / 2 ∧
      (simulate_tick cmd s).vel.y = -(0.7 * |(vel_after_update cmd s.vel).y|) ∧
      (simulate_tick cmd s).vel.y < 0) ∧
    (∀ (cmd : String) (s : SimState),
      (vel_after_update cmd s.vel).y < 0 →
      s.pos.y + (vel_after_update cmd s.vel).y ≤ ROBOT_SIZE / 2 →
      (simulate_tick cmd s).pos.y = ROBOT_SIZE / 2 ∧
      (simulate_tick cmd s).vel.y = 0.7 * |(vel_after_update cmd s.vel).y| ∧
      0 < (simulate_tick cmd s).vel.y) := by
  refine ⟨fun cmd s h1 h2 => ?_, fun cmd s h1 h2 => ?_,
          fun cmd s h1 h2 => ?_, fun cmd s h1 h2 => ?_⟩
  · have hfar := collide_axis_far (ROBOT_SIZE / 2) (WIDTH - ROBOT_SIZE / 2)
      (s.pos.x + (vel_after_update cmd s.vel).x) (vel_after_update cmd s.vel).x
      (by norm_num [ROBOT_SIZE, WIDTH]) h2
    have habs : 0 < |(vel_after_update cmd s.vel).x| := abs_pos.mpr (ne_of_gt h1)
    refine ⟨?_, ?_, ?_⟩
    · rw [simulate_tick_pos_x, hfar]
    · rw [simulate_tick_vel_x, hfar]
      ring
    · rw [simulate_tick_vel_x, hfar]
      linarith
  · have hnear := collide_axis_near (ROBOT_SIZE / 2) (WIDTH - ROBOT_SIZE / 2)
      (s.pos.x + (vel_after_update cmd s.vel).x) (vel_after_update cmd s.vel).x h2
    have habs : 0 < |(vel_after_update cmd s.vel).x| := abs_pos.mpr (ne_of_lt h1)
    refine ⟨?_, ?_, ?_⟩
    · rw [simulate_tick_pos_x, hnear]
    · rw [simulate_tick_vel_x, hnear]
      ring
    · rw [simulate_tick_vel_x, hnear]
      linarith
  · have hfar := collide_axis_far (ROBOT_SIZE / 2) (HEIGHT - ROBOT_SIZE / 2)
      (s.pos.y + (vel_after_update cmd s.vel).y) (vel_after_update cmd s.vel).y
      (by norm_num [ROBOT_SIZE, HEIGHT]) h2
    have habs : 0 < |(vel_after_update cmd s.vel).y| := abs_pos.mpr (ne_of_gt h1)
    refine ⟨?_, ?_, ?_⟩
    · rw [simulate_tick_pos_y, hfar]
    · rw [simulate_tick_vel_y, hfar]
      ring
    · rw [simulate_tick_vel_y, hfar]
      linarith
  · have hnear := collide_axis_near (ROBOT_SIZE / 2) (HEIGHT - ROBOT_SIZE / 2)
      (s.pos.y + (vel_after_update cmd s.vel).y) (vel_after_update cmd s.vel).y h2
    have habs : 0 < |(vel_after_update cmd s.vel).y| := abs_pos.mpr (ne_of_lt h1)
    refine ⟨?_, ?_, ?_⟩
    · rw [simulate_tick_pos_y, hnear]
    · rw [simulate_tick_vel_y, hnear]
      ring
    · rw [simulate_tick_vel_y, hnear]
      linarith

/-- Witness for C3: concrete bounces at all four edges. -/
theorem collision_law_witness :
    ((simulate_tick "R" ⟨⟨4, 0⟩, ⟨779, 300⟩, []⟩).pos.x = WIDTH - ROBOT_SIZE / 2 ∧
     (simulate_tick "R" ⟨⟨4, 0⟩, ⟨779, 300⟩, []⟩).vel.x < 0) ∧
    ((simulate_tick "L" ⟨⟨-4, 0⟩, ⟨21, 300⟩, []⟩).pos.x = ROBOT_SIZE / 2 ∧
     0 < (simulate_tick "L" ⟨⟨-4, 0⟩, ⟨21, 300⟩, []⟩).vel.x) ∧
    ((simulate_tick "B" ⟨⟨0, 4⟩, ⟨400, 579⟩, []⟩).pos.y = HEIGHT - ROBOT_SIZE / 2 ∧
     (simulate_tick "B" ⟨⟨0, 4⟩, ⟨400, 579⟩, []⟩).vel.y < 0) ∧
    ((simulate_tick "F" ⟨⟨0, -4⟩, ⟨400, 21⟩, []⟩).pos.y = ROBOT_SIZE / 2 ∧
     0 < (simulate_tick "F" ⟨⟨0, -4⟩, ⟨400, 21⟩, []⟩).vel.y) := by
  refine ⟨⟨?_, ?_⟩, ⟨?_, ?_⟩, ⟨?_, ?_⟩, ⟨?_, ?_⟩⟩
  · exact (collision_law.1 "R" ⟨⟨4, 0⟩, ⟨779, 300⟩, []⟩
      (by with_unfolding_all decide) (by with_unfolding_all decide)).1
  · exact (collision_law.1 "R" ⟨⟨4, 0⟩, ⟨779, 300⟩, []⟩
      (by with_unfolding_all decide) (by with_unfolding_all decide)).2.2
  · exact (collision_law.2.1 "L" ⟨⟨-4, 0⟩, ⟨21, 300⟩, []⟩
      (by with_unfolding_all decide) (by with_unfolding_all decide)).1
  · exact (collision_law.2.1 "L" ⟨⟨-4, 0⟩, ⟨21, 300⟩, []⟩
      (by with_unfolding_all decide) (by with_unfolding_all decide)).2.2
  · exact (collision_law.2.2.1 "B" ⟨⟨0, 4⟩, ⟨400, 579⟩, []⟩
      (by with_unfolding_all decide) (by with_unfolding_all decide)).1
  · exact (collision_law.2.2.1 "B" ⟨⟨0, 4⟩, ⟨400, 579⟩, []⟩
      (by with_unfolding_all decide) (by with_unfolding_all decide)).2.2
  · exact (collision_law.2.2.2 "F" ⟨⟨0, -4⟩, ⟨400, 21⟩, []⟩
      (by with_unfolding_all decide) (by with_unfolding_all decide)).1
  · exact (collision_law.2.2.2 "F" ⟨⟨0, -4⟩, ⟨400, 21⟩, []⟩
      (by with_unfolding_all decide) (by with_unfolding_all decide)).2.2

theorem trail_update_length_le (trail : List Vec2) (o np : Vec2)
    (h : trail.length ≤ max_trail) :
    (trail_update trail o np).length ≤ max_trail := by
  unfold trail_update
  split_ifs with h1 h2
  · simp only [List.length_tail, List.length_append, List.length_singleton]
    omega
  · simp only [not_lt, List.length_append, List.length_singleton] at h2
    simpa using h2
  · exact h

theorem simulate_tick_trail_length (cmd : String) (s : SimState)
    (h : s.trail.length ≤ max_trail) :
    (simulate_tick cmd s).trail.length ≤ max_trail := by
  rw [simulate_tick_trail]
  exact trail_update_length_le _ _ _ h

/-- C6: along every run of the simulation loop from the initial (empty)
trail the trail length never exceeds the capacity `max_trail` = 150, and a
recording tick that finds the trail at capacity evicts exactly the oldest
(first) entry, the remaining entries keeping their oldest-first order. -/
theorem trail_capacity_fifo :
    (∀ cmds : List String, (run cmds init).trail.length ≤ max_trail) ∧
    (∀ (trail : List Vec2) (o np : Vec2),
      trail.length = max_trail →
      (|np.x - o.x| > 0.5 ∨ |np.y - o.y| > 0.5) →
      trail_update trail o np = trail.tail ++ [o]) := by
  constructor
  · have haux : ∀ (cmds : List String) (s : SimState),
        s.trail.length ≤ max_trail → (run cmds s).trail.length ≤ max_trail := by
      intro cmds
      induction cmds with
      | nil => exact fun s hs => hs
      | cons c cs ih =>
          intro s hs
          rw [run_cons]
          exact ih _ (simulate_tick_trail_length c s hs)
    intro cmds
    exact haux cmds init (by simp [init])
  · intro trail o np hlen hmove
    unfold trail_update
    rw [if_pos hmove]
    have hgt : max_trail < (trail ++ [o]).length := by
      simp [List.length_append, hlen]
    rw [if_pos hgt]
    cases trail with
    | nil => simp [max_trail] at hlen
    | cons a l => simp

/-- Witness for C6: a run of one tick, and an eviction from a trail at
capacity. -/
theorem trail_capacity_fifo_witness :
    (run ["R"] init).trail.length ≤ max_trail ∧
    ((List.replicate 150 (⟨0, 0⟩ : Vec2)).length = max_trail ∧
     (|(404 : ℚ) - 400| > 0.5 ∨ |(300 : ℚ) - 300| > 0.5) ∧
     trail_update (List.replicate 150 (⟨0, 0⟩ : Vec2)) ⟨400, 300⟩ ⟨404, 300⟩ =
       (List.replicate 150 (⟨0, 0⟩ : Vec2)).tail ++ [⟨400, 300⟩]) :=
  ⟨trail_capacity_fifo.1 ["R"],
   by with_unfolding_all decide,
   by with_unfolding_all decide,
   trail_capacity_fifo.2 (List.replicate 150 (⟨0, 0⟩ : Vec2)) ⟨400, 300⟩ ⟨404, 300⟩
     (by with_unfolding_all decide) (by with_unfolding_all decide)⟩

/-- Counterexample to C7: under command "R" from velocity (4, 0), position
(400, 300) and an empty trail, the loop appends the OLD position (400, 300)
and not the new position (404, 300); and under command "S" from the small
velocity (0.4, 0) with trail [(0, 0)], the trail stays unchanged although
the new position is far more than 0.5 away from the previously recorded
trail point (0, 0) — the epsilon test compares against the previous tick's
position, not the previously recorded point. -/
theorem trail_record_counterexample :
    (simulate_tick "R" ⟨⟨4, 0⟩, ⟨400, 300⟩, []⟩).trail = [⟨400, 300⟩] ∧
    (simulate_tick "R" ⟨⟨4, 0⟩, ⟨400, 300⟩, []⟩).pos = ⟨404, 300⟩ ∧
    ((⟨400, 300⟩ : Vec2) ≠ ⟨404, 300⟩) ∧
    (simulate_tick "S" ⟨⟨0.4, 0⟩, ⟨400, 300⟩, [⟨0, 0⟩]⟩).trail = [⟨0, 0⟩] ∧
    |(simulate_tick "S" ⟨⟨0.4, 0⟩, ⟨400, 300⟩, [⟨0, 0⟩]⟩).pos.x - (0 : ℚ)| > 0.5 := by
  refine ⟨?_, ?_, ?_, ?_, ?_⟩ <;> with_unfolding_all decide

/-- C7 amended: on each tick the loop records the PREVIOUS position, and
only when the new position differs from the previous tick's position by
more than 0.5 on the x axis or on the y axis (per-tick displacement, not
distance from the previously recorded trail point); otherwise the trail is
unchanged.  An append beyond capacity evicts the oldest entry. -/
theorem trail_record_rule (cmd : String) (s : SimState) :
    ((|(simulate_tick cmd s).pos.x - s.pos.x| > 0.5 ∨
      |(simulate_tick cmd s).pos.y - s.pos.y| > 0.5) →
      (simulate_tick cmd s).trail =
        if max_trail < (s.trail ++ [s.pos]).length then (s.trail ++ [s.pos]).tail
        else s.trail ++ [s.pos]) ∧
    (¬(|(simulate_tick cmd s).pos.x - s.pos.x| > 0.5 ∨
       |(simulate_tick cmd s).pos.y - s.pos.y| > 0.5) →
      (simulate_tick cmd s).trail = s.trail) := by
  constructor
  · intro h
    rw [simulate_tick_trail]
    unfold trail_update
    rw [if_pos h]
  · intro h
    rw [simulate_tick_trail]
    unfold trail_update
    rw [if_neg h]

/-- Witness for C7 amended: a moving tick records the previous position, a
resting tick leaves the trail unchanged. -/
theorem trail_record_rule_witness :
    ((|(simulate_tick "R" ⟨⟨4, 0⟩, ⟨400, 300⟩, []⟩).pos.x - (400 : ℚ)| > 0.5 ∨
      |(simulate_tick "R" ⟨⟨4, 0⟩, ⟨400, 300⟩, []⟩).pos.y - (300 : ℚ)| > 0.5) ∧
     (simulate_tick "R" ⟨⟨4, 0⟩, ⟨400, 300⟩, []⟩).trail = [⟨400, 300⟩]) ∧
    (¬(|(simulate_tick "S" init).pos.x - init.pos.x| > 0.5 ∨
       |(simulate_tick "S" init).pos.y - init.pos.y| > 0.5) ∧
     (simulate_tick "S" init).trail = init.trail) := by
  refine ⟨⟨by with_unfolding_all decide, ?_⟩, by with_unfolding_all decide, ?_⟩
  · exact ((trail_record_rule "R" ⟨⟨4, 0⟩, ⟨400, 300⟩, []⟩).1
      (by with_unfolding_all decide)).trans (by with_unfolding_all decide)
  · exact (trail_record_rule "S" init).2 (by with_unfolding_all decide)

theorem axis_vel_update_zero_fix : axis_vel_update 0 0 = 0 := by
  unfold axis_vel_update
  norm_num

theorem iterate_stop_zero (m : ℕ) : (axis_vel_update 0)^[m] 0 = 0 := by
  induction m with
  | zero => rfl
  | succ n ih => rw [Function.iterate_succ_apply', ih, axis_vel_update_zero_fix]

theorem abs_axis_vel_update_zero_le (v : ℚ) :
    |axis_vel_update 0 v| ≤ friction * |v| := by
  have hfr : (0 : ℚ) ≤ friction := by norm_num [friction]
  unfold axis_vel_update
  rw [if_neg (by norm_num)]
  split_ifs
  · simpa using mul_nonneg hfr (abs_nonneg v)
  · rw [abs_mul, abs_of_nonneg hfr, mul_comm]

theorem iterate_stop_abs_le (n : ℕ) (v : ℚ) :
    |(axis_vel_update 0)^[n] v| ≤ friction ^ n * |v| := by
  have hfr : (0 : ℚ) ≤ friction := by norm_num [friction]
  induction n with
  | zero => simp
  | succ m ih =>
      rw [Function.iterate_succ_apply']
      calc |axis_vel_update 0 ((axis_vel_update 0)^[m] v)|
          ≤ friction * |(axis_vel_update 0)^[m] v| := abs_axis_vel_update_zero_le _
        _ ≤ friction * (friction ^ m * |v|) := by
            exact mul_le_mul_of_nonneg_left ih hfr
        _ = friction ^ (m + 1) * |v| := by ring

theorem axis_vel_update_snap (v : ℚ) (h : |v| < 0.1) : axis_vel_update 0 v = 0 := by
  have hfr0 : (0 : ℚ) ≤ friction := by norm_num [friction]
  have hfr1 : friction ≤ 1 := by norm_num [friction]
  unfold axis_vel_update
  rw [if_neg (by norm_num), if_pos]
  rw [abs_mul, abs_of_nonneg hfr0]
  calc |v| * friction ≤ |v| * 1 := mul_le_mul_of_nonneg_left hfr1 (abs_nonneg v)
    _ = |v| := mul_one _
    _ < 0.1 := h

/-- C4: under a zero axis target (command Stop) the per-axis velocity
update strictly decreases a nonzero velocity's magnitude each tick, never
inverts its sign, and for every starting velocity there is a tick count
after which the velocity is exactly 0 and stays 0 forever. -/
theorem stop_decay_law :
    (∀ v : ℚ, v ≠ 0 → |axis_vel_update 0 v| < |v|) ∧
    (∀ v : ℚ, 0 ≤ v → 0 ≤ axis_vel_update 0 v) ∧
    (∀ v : ℚ, v ≤ 0 → axis_vel_update 0 v ≤ 0) ∧
    (∀ v : ℚ, ∃ n : ℕ, ∀ m : ℕ, n ≤ m → (axis_vel_update 0)^[m] v = 0) := by
  have hfr0 : (0 : ℚ) ≤ friction := by norm_num [friction]
  have hfr1 : friction < 1 := by norm_num [friction]
  refine ⟨?_, ?_, ?_, ?_⟩
  · intro v hv
    have habs : 0 < |v| := abs_pos.mpr hv
    calc |axis_vel_update 0 v| ≤ friction * |v| := abs_axis_vel_update_zero_le v
      _ < 1 * |v| := by exact mul_lt_mul_of_pos_right hfr1 habs
      _ = |v| := one_mul _
  · intro v hv
    unfold axis_vel_update
    rw [if_neg (by norm_num)]
    split_ifs
    · exact le_refl 0
    · exact mul_nonneg hv hfr0
  · intro v hv
    unfold axis_vel_update
    rw [if_neg (by norm_num)]
    split_ifs
    · exact le_refl 0
    · exact mul_nonpos_of_nonpos_of_nonneg hv hfr0
  · intro v
    rcases eq_or_ne v 0 with rfl | hv
    · exact ⟨0, fun m _ => iterate_stop_zero m⟩
    · have habs : 0 < |v| := abs_pos.mpr hv
      have heps : 0 < (0.1 : ℚ) / |v| := div_pos (by norm_num) habs
      obtain ⟨n, hn⟩ := exists_pow_lt_of_lt_one heps hfr1
      have hsnap : (axis_vel_update 0)^[n + 1] v = 0 := by
        rw [Function.iterate_succ_apply']
        apply axis_vel_update_snap
        calc |(axis_vel_update 0)^[n] v| ≤ friction ^ n * |v| := iterate_stop_abs_le n v
          _ < 0.1 := (lt_div_iff₀ habs).mp hn
      refine ⟨n + 1, fun m hm => ?_⟩
      obtain ⟨k, rfl⟩ : ∃ k, m = k + (n + 1) := ⟨m - (n + 1), by omega⟩
      rw [Function.iterate_add_apply, hsnap, iterate_stop_zero]

/-- Witness for C4 at velocities 4 and -4. -/
theorem stop_decay_law_witness :
    ((4 : ℚ) ≠ 0 ∧ |axis_vel_update 0 4| < |(4 : ℚ)|) ∧
    ((0 : ℚ) ≤ 4 ∧ 0 ≤ axis_vel_update 0 4) ∧
    ((-4 : ℚ) ≤ 0 ∧ axis_vel_update 0 (-4) ≤ 0) :=
  ⟨⟨by norm_num, stop_decay_law.1 4 (by norm_num)⟩,
   ⟨by norm_num, stop_decay_law.2.1 4 (by norm_num)⟩,
   ⟨by norm_num, stop_decay_law.2.2.1 (-4) (by norm_num)⟩⟩

/-- Counterexample to C5: from the initial state, after 10 Forward ticks
and up to 30 Stop ticks the y velocity is never exactly 0 — the decay from
-4 under friction 0.92 first crosses the 0.1 snap threshold at Stop tick
45, not before tick 30. -/
theorem scenario_stop30_counterexample :
    (run (List.replicate 10 "F" ++ List.replicate 30 "S") init).vel.y ≠ 0 ∧
    ((List.range 31).all fun k =>
      (run (List.replicate 10 "F" ++ List.replicate k "S") init).vel.y != 0) = true := by
  constructor
  · with_unfolding_all decide
  · with_unfolding_all decide

/-- C5 amended: from the initial state (velocity (0, 0), position
(400, 300), maxSpeed 4, acceleration 0.6, friction 0.92), 10 Forward ticks
give velocity.y = -4 exactly (clamped at the max) and position.y = 271.4 =
300 plus the cumulative per-tick sum of velocity.y; subsequent Stop ticks
decay velocity.y to exactly 0 at the 45th Stop tick (still nonzero at the
44th), not before the 30th. -/
theorem scenario_forward_then_stop :
    (run (List.replicate 10 "F") init).vel.y = -4 ∧
    (run (List.replicate 10 "F") init).pos.y = 1357 / 5 ∧
    (run (List.replicate 10 "F") init).pos.y =
      300 + ((List.range 10).map fun k =>
        (run (List.replicate (k + 1) "F") init).vel.y).sum ∧
    (run (List.replicate 10 "F" ++ List.replicate 44 "S") init).vel.y ≠ 0 ∧
    (run (List.replicate 10 "F" ++ List.replicate 45 "S") init).vel.y = 0 := by
  refine ⟨?_, ?_, ?_, ?_, ?_⟩
  · with_unfolding_all decide
  · with_unfolding_all decide
  · with_unfolding_all decide
  · with_unfolding_all decide
  · with_unfolding_all decide
